import Mathlib

/-!
Shallow embedding of the xca9548a I2C switch/multiplexer driver
(TCA954xA / PCA954xA family).

The bus collaborator is modelled as an oracle `beh` (deciding, from the
history of operations so far and the current operation, whether the
operation succeeds and which bytes a read returns) together with a log of
every operation issued.  The shared device record `Xca954xaData` and the
`RefCell` borrow discipline (`do_on_acquired`) are embedded as explicit
state passing; Rust `Result` becomes `Except`.  Machine bytes are `Nat`
values; all bit operations in the source (`&`, `|`, `<<`, `>>`) are
overflow-free on `u8`, so no modular reduction is needed beyond the
`< 256` side conditions stated where relevant.
-/

/-- One sub-operation of an `embedded_hal::i2c::Operation` slice,
as passed to `transaction`. -/
inductive I2cOperation where
  | opRead (len : Nat)
  | opWrite (data : List Nat)
deriving DecidableEq, Repr

/-- A primitive operation issued to the underlying bus collaborator. -/
inductive BusOp where
  | write (addr : Nat) (data : List Nat)
  | read (addr : Nat) (len : Nat)
  | writeRead (addr : Nat) (wdata : List Nat) (len : Nat)
  | transaction (addr : Nat) (ops : List I2cOperation)
deriving DecidableEq, Repr

/-- The underlying bus: an oracle `beh` giving each operation's outcome
(as a function of the history and the operation; `.ok l` carries the
bytes a read returns) and the log of every operation issued so far. -/
structure Bus (E : Type) where
  beh : List BusOp → BusOp → Except E (List Nat)
  log : List BusOp

/-- Issue one operation on the bus: append it to the log and ask the
oracle for its outcome. -/
def Bus.step {E : Type} (b : Bus E) (op : BusOp) : Bus E × Except E (List Nat) :=
  ({ b with log := b.log ++ [op] }, b.beh b.log op)

/-- Embedding of `enum Error<E>` of the crate: a wrapped bus error or the
device-acquisition failure. -/
inductive Error (E : Type) where
  | I2C (e : E)
  | CouldNotAcquireDevice
deriving Repr, DecidableEq

/-- Map a raw bus outcome to the crate-level `Result<(), Error<E>>`
(the `map_err(Error::I2C)` pattern, discarding the read payload). -/
def wrapI2C {E : Type} : Except E (List Nat) → Except (Error E) Unit
  | Except.error e => Except.error (Error.I2C e)
  | Except.ok _ => Except.ok ()

/-- Embedding of `enum SlaveAddr` from src/src/lib.rs. -/
inductive SlaveAddr where
  | Default
  | Alternative (a2 a1 a0 : Bool)
deriving DecidableEq, Repr

/-- Embedding of `SlaveAddr::addr` from src/src/lib.rs lines 200-209. -/
def SlaveAddr.addr : SlaveAddr → Nat → Nat
  | SlaveAddr.Default, dflt => dflt
  | SlaveAddr.Alternative a2 a1 a0, dflt =>
      dflt ||| (a2.toNat <<< 2) ||| (a1.toNat <<< 1) ||| a0.toNat

/-- Embedding of `const DEVICE_BASE_ADDRESS: u8 = 0b111_0000` from src/src/lib.rs. -/
def DEVICE_BASE_ADDRESS : Nat := 0b1110000

/-- Embedding of `struct Xca954xaData<I2C>` from src/src/lib.rs lines 214-220:
the shared device record behind the `RefCell`. -/
structure Xca954xaData (E : Type) where
  i2c : Bus E
  address : Nat
  selected_channel_mask : Nat

/-- Embedding of `SelectChannels::select_channels` for `Xca954xaData`,
src/src/lib.rs lines 228-234: write the single control byte; on success
update `selected_channel_mask`, on failure return the wrapped bus error
leaving the mask untouched. -/
def Xca954xaData.select_channels {E : Type} (d : Xca954xaData E) (channels : Nat) :
    Xca954xaData E × Except (Error E) Unit :=
  let s := d.i2c.step (BusOp.write d.address [channels])
  match s.2 with
  | Except.error e => ({ d with i2c := s.1 }, Except.error (Error.I2C e))
  | Except.ok _ =>
      ({ d with i2c := s.1, selected_channel_mask := channels }, Except.ok ())

/-- The driver instance: the `RefCell<Xca954xaData>` of `Xca9548a`,
`Xca9543a` and `Xca9545a` (src/src/lib.rs lines 252-267), with the
`RefCell` dynamic borrow state made explicit as `borrowed`.  The three
variant structs are identical; the variant-specific operations below are
distinguished by name. -/
structure XcaDriver (E : Type) where
  data : Xca954xaData E
  borrowed : Bool

/-- Embedding of `do_on_acquired` from the `i2c_traits!` macro, src/src/lib.rs lines
283-294: `try_borrow_mut` fails with `CouldNotAcquireDevice` exactly when
the cell is already borrowed; otherwise the closure runs on the record. -/
def do_on_acquired {E R : Type} (drv : XcaDriver E)
    (f : Xca954xaData E → Xca954xaData E × Except (Error E) R) :
    XcaDriver E × Except (Error E) R :=
  if drv.borrowed then (drv, Except.error Error.CouldNotAcquireDevice)
  else
    let s := f drv.data
    ({ drv with data := s.1 }, s.2)

/-- Embedding of `new` from the `impl_device!` macro, src/src/lib.rs lines 345-354:
resolve the address, set the mask to 0, take ownership of the bus. -/
def XcaDriver.new {E : Type} (i2c : Bus E) (address : SlaveAddr) : XcaDriver E :=
  { data :=
      { i2c := i2c
        address := address.addr DEVICE_BASE_ADDRESS
        selected_channel_mask := 0 }
    borrowed := false }

/-- Embedding of `destroy` from the `impl_device!` macro, src/src/lib.rs lines
357-359: return the owned bus handle. -/
def XcaDriver.destroy {E : Type} (drv : XcaDriver E) : Bus E :=
  drv.data.i2c

/-- Pass-through `I2c::write` from the `i2c_traits!` macro,
src/src/lib.rs lines 323-325. -/
def XcaDriver.write {E : Type} (drv : XcaDriver E) (address : Nat) (bytes : List Nat) :
    XcaDriver E × Except (Error E) Unit :=
  do_on_acquired drv fun dev =>
    let s := dev.i2c.step (BusOp.write address bytes)
    ({ dev with i2c := s.1 }, wrapI2C s.2)

/-- Pass-through `I2c::read` from the `i2c_traits!` macro,
src/src/lib.rs lines 319-321 (the caller's buffer is represented by its
length). -/
def XcaDriver.read {E : Type} (drv : XcaDriver E) (address : Nat) (len : Nat) :
    XcaDriver E × Except (Error E) Unit :=
  do_on_acquired drv fun dev =>
    let s := dev.i2c.step (BusOp.read address len)
    ({ dev with i2c := s.1 }, wrapI2C s.2)

/-- Pass-through `I2c::write_read` from the `i2c_traits!` macro,
src/src/lib.rs lines 327-336. -/
def XcaDriver.write_read {E : Type} (drv : XcaDriver E) (address : Nat)
    (bytes : List Nat) (len : Nat) : XcaDriver E × Except (Error E) Unit :=
  do_on_acquired drv fun dev =>
    let s := dev.i2c.step (BusOp.writeRead address bytes len)
    ({ dev with i2c := s.1 }, wrapI2C s.2)

/-- Pass-through `I2c::transaction` from the `i2c_traits!` macro,
src/src/lib.rs lines 309-317. -/
def XcaDriver.transaction {E : Type} (drv : XcaDriver E) (address : Nat)
    (ops : List I2cOperation) : XcaDriver E × Except (Error E) Unit :=
  do_on_acquired drv fun dev =>
    let s := dev.i2c.step (BusOp.transaction address ops)
    ({ dev with i2c := s.1 }, wrapI2C s.2)

/-- Embedding of `Xca9548a::select_channels` (no-interrupt variant), src/src/lib.rs
lines 409-411: the requested byte is forwarded unmasked. -/
def Xca9548a.select_channels {E : Type} (drv : XcaDriver E) (channels : Nat) :
    XcaDriver E × Except (Error E) Unit :=
  do_on_acquired drv fun dev => dev.select_channels channels

/-- Embedding of `Xca9543a::select_channels` (2-channel interrupt variant,
`$mask = 0x03`), src/src/lib.rs lines 469-471. -/
def Xca9543a.select_channels {E : Type} (drv : XcaDriver E) (channels : Nat) :
    XcaDriver E × Except (Error E) Unit :=
  do_on_acquired drv fun dev => dev.select_channels (channels &&& 0x03)

/-- Embedding of `Xca9545a::select_channels` (4-channel interrupt variant,
`$mask = 0x0f`), src/src/lib.rs lines 469-471. -/
def Xca9545a.select_channels {E : Type} (drv : XcaDriver E) (channels : Nat) :
    XcaDriver E × Except (Error E) Unit :=
  do_on_acquired drv fun dev => dev.select_channels (channels &&& 0x0f)

/-- Embedding of `Xca9548a::get_channel_status` (no-interrupt variant),
src/src/lib.rs lines 385-394: single-byte read of the control register,
raw byte returned unmodified. -/
def Xca9548a.get_channel_status {E : Type} (drv : XcaDriver E) :
    XcaDriver E × Except (Error E) Nat :=
  do_on_acquired drv fun dev =>
    let s := dev.i2c.step (BusOp.read dev.address 1)
    ({ dev with i2c := s.1 },
      match s.2 with
      | Except.error e => Except.error (Error.I2C e)
      | Except.ok l => Except.ok (l.headD 0))

/-- Embedding of `Xca9543a::get_channel_status` (interrupt variant, `$mask = 0x03`),
src/src/lib.rs lines 427-436: low bits of the raw byte. -/
def Xca9543a.get_channel_status {E : Type} (drv : XcaDriver E) :
    XcaDriver E × Except (Error E) Nat :=
  do_on_acquired drv fun dev =>
    let s := dev.i2c.step (BusOp.read dev.address 1)
    ({ dev with i2c := s.1 },
      match s.2 with
      | Except.error e => Except.error (Error.I2C e)
      | Except.ok l => Except.ok (l.headD 0 &&& 0x03))

/-- Embedding of `Xca9543a::get_interrupt_status`, src/src/lib.rs lines 444-453:
upper nibble shifted down, masked. -/
def Xca9543a.get_interrupt_status {E : Type} (drv : XcaDriver E) :
    XcaDriver E × Except (Error E) Nat :=
  do_on_acquired drv fun dev =>
    let s := dev.i2c.step (BusOp.read dev.address 1)
    ({ dev with i2c := s.1 },
      match s.2 with
      | Except.error e => Except.error (Error.I2C e)
      | Except.ok l => Except.ok ((l.headD 0 >>> 4) &&& 0x03))

/-- Embedding of `Xca9545a::get_channel_status` (interrupt variant, `$mask = 0x0f`),
src/src/lib.rs lines 427-436. -/
def Xca9545a.get_channel_status {E : Type} (drv : XcaDriver E) :
    XcaDriver E × Except (Error E) Nat :=
  do_on_acquired drv fun dev =>
    let s := dev.i2c.step (BusOp.read dev.address 1)
    ({ dev with i2c := s.1 },
      match s.2 with
      | Except.error e => Except.error (Error.I2C e)
      | Except.ok l => Except.ok (l.headD 0 &&& 0x0f))

/-- Embedding of `Xca9545a::get_interrupt_status`, src/src/lib.rs lines 444-453. -/
def Xca9545a.get_interrupt_status {E : Type} (drv : XcaDriver E) :
    XcaDriver E × Except (Error E) Nat :=
  do_on_acquired drv fun dev =>
    let s := dev.i2c.step (BusOp.read dev.address 1)
    ({ dev with i2c := s.1 },
      match s.2 with
      | Except.error e => Except.error (Error.I2C e)
      | Except.ok l => Except.ok ((l.headD 0 >>> 4) &&& 0x0f))

/-- A split-off channel handle (`$I2CX<'a, DEV, I2C>(&'a DEV, u8, ...)`
from src/src/parts.rs line 8): it carries its fixed target channel mask
(`self.1`); the shared back-reference to the device record is embedded as
explicit state passing — every operation below takes and returns the one
`XcaDriver` state. -/
structure I2cX where
  channel : Nat
deriving DecidableEq, Repr

/-- Embedding of `I2cX::write` from src/src/parts.rs lines 36-43: acquire, lazily
re-select the handle's channel if the current mask differs (aborting on
select failure), then forward the caller's write. -/
def I2cX.write {E : Type} (h : I2cX) (drv : XcaDriver E) (address : Nat)
    (bytes : List Nat) : XcaDriver E × Except (Error E) Unit :=
  do_on_acquired drv fun dev =>
    if dev.selected_channel_mask ≠ h.channel then
      let s := dev.select_channels h.channel
      match s.2 with
      | Except.error e => (s.1, Except.error e)
      | Except.ok _ =>
          let t := s.1.i2c.step (BusOp.write address bytes)
          ({ s.1 with i2c := t.1 }, wrapI2C t.2)
    else
      let t := dev.i2c.step (BusOp.write address bytes)
      ({ dev with i2c := t.1 }, wrapI2C t.2)

/-- Embedding of `I2cX::read` from src/src/parts.rs lines 53-60. -/
def I2cX.read {E : Type} (h : I2cX) (drv : XcaDriver E) (address : Nat)
    (len : Nat) : XcaDriver E × Except (Error E) Unit :=
  do_on_acquired drv fun dev =>
    if dev.selected_channel_mask ≠ h.channel then
      let s := dev.select_channels h.channel
      match s.2 with
      | Except.error e => (s.1, Except.error e)
      | Except.ok _ =>
          let t := s.1.i2c.step (BusOp.read address len)
          ({ s.1 with i2c := t.1 }, wrapI2C t.2)
    else
      let t := dev.i2c.step (BusOp.read address len)
      ({ dev with i2c := t.1 }, wrapI2C t.2)

/-- Embedding of `I2cX::write_read` from src/src/parts.rs lines 70-82. -/
def I2cX.write_read {E : Type} (h : I2cX) (drv : XcaDriver E) (address : Nat)
    (bytes : List Nat) (len : Nat) : XcaDriver E × Except (Error E) Unit :=
  do_on_acquired drv fun dev =>
    if dev.selected_channel_mask ≠ h.channel then
      let s := dev.select_channels h.channel
      match s.2 with
      | Except.error e => (s.1, Except.error e)
      | Except.ok _ =>
          let t := s.1.i2c.step (BusOp.writeRead address bytes len)
          ({ s.1 with i2c := t.1 }, wrapI2C t.2)
    else
      let t := dev.i2c.step (BusOp.writeRead address bytes len)
      ({ dev with i2c := t.1 }, wrapI2C t.2)

/-- Embedding of `struct Parts` generated by the `parts!` macro invocation,
src/src/parts.rs lines 87-90: the eight handles of the 8-channel
variant. -/
structure Parts where
  i2c0 : I2cX
  i2c1 : I2cX
  i2c2 : I2cX
  i2c3 : I2cX
  i2c4 : I2cX
  i2c5 : I2cX
  i2c6 : I2cX
  i2c7 : I2cX
deriving DecidableEq, Repr

/-- Embedding of `Parts::new` from src/src/parts.rs lines 19-27 with the channel
constants of the invocation at lines 87-90. -/
def Parts.new : Parts :=
  { i2c0 := { channel := 1 }
    i2c1 := { channel := 2 }
    i2c2 := { channel := 4 }
    i2c3 := { channel := 8 }
    i2c4 := { channel := 16 }
    i2c5 := { channel := 32 }
    i2c6 := { channel := 64 }
    i2c7 := { channel := 128 } }

/-- Embedding of `split` from the `impl_device!` macro, src/src/lib.rs lines 366-368:
`Parts::new(&self)` over a shared borrow — the driver state is returned
untouched alongside the handles. -/
def XcaDriver.split {E : Type} (drv : XcaDriver E) : XcaDriver E × Parts :=
  (drv, Parts.new)

/-- The target masks of the eight handles, in field order. -/
def Parts.channels (p : Parts) : List Nat :=
  [p.i2c0.channel, p.i2c1.channel, p.i2c2.channel, p.i2c3.channel,
   p.i2c4.channel, p.i2c5.channel, p.i2c6.channel, p.i2c7.channel]

/-- Modelled from the spec: `Parts2`, the 2-channel splitter. Its body is
absent from src/src/parts.rs (only re-exported by src/src/lib.rs line
486); spec §4.4 fixes target masks `{1<<0, 1<<1}`. -/
structure Parts2 where
  i2c0 : I2cX
  i2c1 : I2cX
deriving DecidableEq, Repr

/-- Modelled from the spec: `Parts2::new` with masks 1 and 2. -/
def Parts2.new : Parts2 :=
  { i2c0 := { channel := 1 }, i2c1 := { channel := 2 } }

/-- Modelled from the spec: `Parts4`, the 4-channel splitter, masks
`{1<<0 .. 1<<3}`; body absent from src/src/parts.rs. -/
structure Parts4 where
  i2c0 : I2cX
  i2c1 : I2cX
  i2c2 : I2cX
  i2c3 : I2cX
deriving DecidableEq, Repr

/-- Modelled from the spec: `Parts4::new` with masks 1, 2, 4, 8. -/
def Parts4.new : Parts4 :=
  { i2c0 := { channel := 1 }, i2c1 := { channel := 2 }
    i2c2 := { channel := 4 }, i2c3 := { channel := 8 } }

/-- The target masks of the two `Parts2` handles, in field order. -/
def Parts2.channels (p : Parts2) : List Nat :=
  [p.i2c0.channel, p.i2c1.channel]

/-- The target masks of the four `Parts4` handles, in field order. -/
def Parts4.channels (p : Parts4) : List Nat :=
  [p.i2c0.channel, p.i2c1.channel, p.i2c2.channel, p.i2c3.channel]

/-! Concrete fixtures used by witness theorems: a bus whose operations
always succeed (reads return `[0]`), a bus whose operations always fail,
and drivers over them. -/

/-- A bus oracle on which every operation succeeds, reads returning `[0]`. -/
def behOkZero : List BusOp → BusOp → Except Unit (List Nat) :=
  fun _ _ => Except.ok [0]

/-- A bus oracle on which every operation fails. -/
def behFail : List BusOp → BusOp → Except Unit (List Nat) :=
  fun _ _ => Except.error ()

/-- An all-succeeding bus with an empty log. -/
def busOk : Bus Unit := { beh := behOkZero, log := [] }

/-- An all-failing bus with an empty log. -/
def busFail : Bus Unit := { beh := behFail, log := [] }

/-- A device record at the default address over `busOk`. -/
def devOk : Xca954xaData Unit :=
  { i2c := busOk, address := DEVICE_BASE_ADDRESS, selected_channel_mask := 0 }

/-- A device record at the default address over `busFail`. -/
def devFail : Xca954xaData Unit :=
  { i2c := busFail, address := DEVICE_BASE_ADDRESS, selected_channel_mask := 0 }

/-- An unborrowed driver over `busOk`. -/
def drvOk : XcaDriver Unit := { data := devOk, borrowed := false }

/-- An unborrowed driver over `busFail`. -/
def drvFail : XcaDriver Unit := { data := devFail, borrowed := false }

/-- A driver whose record is currently exclusively held (mid-operation). -/
def drvBusy : XcaDriver Unit := { data := devOk, borrowed := true }

/-! Characterization lemmas for the embedded operations, shared by the
claim theorems below. -/

/-- When the record is already borrowed, `do_on_acquired` fails without
running the closure or touching the state. -/
theorem do_on_acquired_of_borrowed {E R : Type} (drv : XcaDriver E)
    (f : Xca954xaData E → Xca954xaData E × Except (Error E) R)
    (hb : drv.borrowed = true) :
    do_on_acquired drv f = (drv, Except.error Error.CouldNotAcquireDevice) := by
  simp [do_on_acquired, hb]

/-- When the record is free, `do_on_acquired` runs the closure on it. -/
theorem do_on_acquired_of_free {E R : Type} (drv : XcaDriver E)
    (f : Xca954xaData E → Xca954xaData E × Except (Error E) R)
    (hb : drv.borrowed = false) :
    do_on_acquired drv f = ({ drv with data := (f drv.data).1 }, (f drv.data).2) := by
  simp [do_on_acquired, hb]

/-- A successful control-register write: the write is issued, the mask is
updated to the written byte, everything else is unchanged. -/
theorem select_channels_of_ok {E : Type} (d : Xca954xaData E) (ch : Nat)
    (v : List Nat)
    (hok : d.i2c.beh d.i2c.log (BusOp.write d.address [ch]) = Except.ok v) :
    d.select_channels ch =
      ({ d with
          i2c := { d.i2c with log := d.i2c.log ++ [BusOp.write d.address [ch]] }
          selected_channel_mask := ch },
        Except.ok ()) := by
  simp [Xca954xaData.select_channels, Bus.step, hok]

/-- A failed control-register write: the attempt is issued and logged,
the bus error is returned wrapped, and the mask keeps its prior value. -/
theorem select_channels_of_error {E : Type} (d : Xca954xaData E) (ch : Nat)
    (e : E)
    (herr : d.i2c.beh d.i2c.log (BusOp.write d.address [ch]) = Except.error e) :
    d.select_channels ch =
      ({ d with
          i2c := { d.i2c with log := d.i2c.log ++ [BusOp.write d.address [ch]] } },
        Except.error (Error.I2C e)) := by
  simp [Xca954xaData.select_channels, Bus.step, herr]

/-- Independently of the bus outcome, `select_channels` issues exactly
the one control write and changes neither address nor oracle. -/
theorem select_channels_log {E : Type} (d : Xca954xaData E) (ch : Nat) :
    (d.select_channels ch).1.i2c.log = d.i2c.log ++ [BusOp.write d.address [ch]] ∧
    (d.select_channels ch).1.address = d.address ∧
    (d.select_channels ch).1.i2c.beh = d.i2c.beh := by
  cases hbeh : d.i2c.beh d.i2c.log (BusOp.write d.address [ch]) with
  | error e => rw [select_channels_of_error d ch _ hbeh]; exact ⟨rfl, rfl, rfl⟩
  | ok v => rw [select_channels_of_ok d ch _ hbeh]; exact ⟨rfl, rfl, rfl⟩

/-- C2: `select_channels` on the shared record keeps
`selected_channel_mask` equal to the byte most recently successfully
written: on bus success the mask becomes exactly the written byte, on
bus failure the wrapped bus error is returned and the mask keeps its
prior value (the attempt itself still being issued on the bus). -/
theorem C2_selected_mask_tracks_writes {E : Type} (d : Xca954xaData E) (ch : Nat) :
    (∀ v, d.i2c.beh d.i2c.log (BusOp.write d.address [ch]) = Except.ok v →
      (d.select_channels ch).2 = Except.ok () ∧
      (d.select_channels ch).1.selected_channel_mask = ch ∧
      (d.select_channels ch).1.i2c.log =
        d.i2c.log ++ [BusOp.write d.address [ch]]) ∧
    (∀ e, d.i2c.beh d.i2c.log (BusOp.write d.address [ch]) = Except.error e →
      (d.select_channels ch).2 = Except.error (Error.I2C e) ∧
      (d.select_channels ch).1.selected_channel_mask = d.selected_channel_mask ∧
      (d.select_channels ch).1.i2c.log =
        d.i2c.log ++ [BusOp.write d.address [ch]]) := by
  constructor
  · intro v hok
    rw [select_channels_of_ok d ch v hok]
    exact ⟨rfl, rfl, rfl⟩
  · intro e herr
    rw [select_channels_of_error d ch e herr]
    exact ⟨rfl, rfl, rfl⟩

/-- Witness for C2: on the all-succeeding bus a select of mask 3
succeeds and sets the mask; on the all-failing bus it reports the bus
error and leaves the mask at 0. -/
theorem C2_selected_mask_tracks_writes_witness :
    ((devOk.select_channels 3).2 = Except.ok () ∧
      (devOk.select_channels 3).1.selected_channel_mask = 3 ∧
      (devOk.select_channels 3).1.i2c.log =
        devOk.i2c.log ++ [BusOp.write devOk.address [3]]) ∧
    ((devFail.select_channels 3).2 = Except.error (Error.I2C ()) ∧
      (devFail.select_channels 3).1.selected_channel_mask =
        devFail.selected_channel_mask ∧
      (devFail.select_channels 3).1.i2c.log =
        devFail.i2c.log ++ [BusOp.write devFail.address [3]]) :=
  ⟨(C2_selected_mask_tracks_writes devOk 3).1 [0] rfl,
   (C2_selected_mask_tracks_writes devFail 3).2 () rfl⟩

/-- C3: when exclusive access to the shared record is already held,
every operation routed through `do_on_acquired` — the gate itself with
an arbitrary closure, select, status reads, pass-through transactions
and the split-off handle operations — returns
`Error.CouldNotAcquireDevice` without running the inner operation and
with the driver state unchanged. -/
theorem C3_busy_returns_could_not_acquire {E : Type} (drv : XcaDriver E)
    (hb : drv.borrowed = true) :
    (∀ (R : Type) (f : Xca954xaData E → Xca954xaData E × Except (Error E) R),
      do_on_acquired drv f = (drv, Except.error Error.CouldNotAcquireDevice)) ∧
    (∀ ch, Xca9548a.select_channels drv ch =
      (drv, Except.error Error.CouldNotAcquireDevice)) ∧
    (∀ ch, Xca9543a.select_channels drv ch =
      (drv, Except.error Error.CouldNotAcquireDevice)) ∧
    (∀ ch, Xca9545a.select_channels drv ch =
      (drv, Except.error Error.CouldNotAcquireDevice)) ∧
    (Xca9548a.get_channel_status drv =
      (drv, Except.error Error.CouldNotAcquireDevice)) ∧
    (Xca9543a.get_channel_status drv =
      (drv, Except.error Error.CouldNotAcquireDevice)) ∧
    (Xca9543a.get_interrupt_status drv =
      (drv, Except.error Error.CouldNotAcquireDevice)) ∧
    (Xca9545a.get_channel_status drv =
      (drv, Except.error Error.CouldNotAcquireDevice)) ∧
    (Xca9545a.get_interrupt_status drv =
      (drv, Except.error Error.CouldNotAcquireDevice)) ∧
    (∀ a bs, drv.write a bs = (drv, Except.error Error.CouldNotAcquireDevice)) ∧
    (∀ a l, drv.read a l = (drv, Except.error Error.CouldNotAcquireDevice)) ∧
    (∀ a bs l, drv.write_read a bs l =
      (drv, Except.error Error.CouldNotAcquireDevice)) ∧
    (∀ a ops, drv.transaction a ops =
      (drv, Except.error Error.CouldNotAcquireDevice)) ∧
    (∀ (h : I2cX) a bs, h.write drv a bs =
      (drv, Except.error Error.CouldNotAcquireDevice)) ∧
    (∀ (h : I2cX) a l, h.read drv a l =
      (drv, Except.error Error.CouldNotAcquireDevice)) ∧
    (∀ (h : I2cX) a bs l, h.write_read drv a bs l =
      (drv, Except.error Error.CouldNotAcquireDevice)) := by
  refine ⟨fun R f => do_on_acquired_of_borrowed drv f hb, ?_, ?_, ?_, ?_, ?_,
    ?_, ?_, ?_, ?_, ?_, ?_, ?_, ?_, ?_, ?_⟩ <;>
    intros <;>
    apply do_on_acquired_of_borrowed _ _ hb

/-- Witness for C3: on a held driver, a select and a handle write both
report `CouldNotAcquireDevice`. -/
theorem C3_busy_returns_could_not_acquire_witness :
    drvBusy.borrowed = true ∧
    Xca9548a.select_channels drvBusy 3 =
      (drvBusy, Except.error Error.CouldNotAcquireDevice) ∧
    I2cX.write { channel := 1 } drvBusy 32 [5] =
      (drvBusy, Except.error Error.CouldNotAcquireDevice) :=
  ⟨rfl,
   (C3_busy_returns_could_not_acquire drvBusy rfl).2.1 3,
   (C3_busy_returns_could_not_acquire drvBusy rfl).2.2.2.2.2.2.2.2.2.2.2.2.2.1
     { channel := 1 } 32 [5]⟩

/-- C4: `select_channels` issues a control write of
`requested &&& VALID_MASK` — `0xFF` (the identity on a `u8`) for the
8-channel variant, `0x0F` for the 4-channel variant, `0x03` for the
2-channel variant — and out-of-range bits are dropped rather than
causing an error; in particular `select_channels 0b1000_0001` on the
2-channel variant issues a write of the single byte `0b0000_0001`. -/
theorem C4_select_masks_by_variant {E : Type} (drv : XcaDriver E)
    (hb : drv.borrowed = false) :
    (∀ ch, ch < 256 →
      ch &&& 0xff = ch ∧
      (Xca9548a.select_channels drv ch).1.data.i2c.log =
        drv.data.i2c.log ++ [BusOp.write drv.data.address [ch &&& 0xff]]) ∧
    (∀ ch, (Xca9545a.select_channels drv ch).1.data.i2c.log =
      drv.data.i2c.log ++ [BusOp.write drv.data.address [ch &&& 0x0f]]) ∧
    (∀ ch, (Xca9543a.select_channels drv ch).1.data.i2c.log =
      drv.data.i2c.log ++ [BusOp.write drv.data.address [ch &&& 0x03]]) ∧
    (Xca9543a.select_channels drv 0b10000001).1.data.i2c.log =
      drv.data.i2c.log ++ [BusOp.write drv.data.address [0b00000001]] := by
  have hmask : ∀ ch : Nat, ch < 256 → ch &&& 0xff = ch := by
    intro ch hch
    have h2 : (0xff : Nat) = 2 ^ 8 - 1 := by norm_num
    rw [h2, Nat.and_pow_two_sub_one_eq_mod, Nat.mod_eq_of_lt hch]
  refine ⟨?_, ?_, ?_, ?_⟩
  · intro ch hch
    refine ⟨hmask ch hch, ?_⟩
    rw [Xca9548a.select_channels, do_on_acquired_of_free _ _ hb, hmask ch hch]
    exact (select_channels_log drv.data ch).1
  · intro ch
    rw [Xca9545a.select_channels, do_on_acquired_of_free _ _ hb]
    exact (select_channels_log drv.data (ch &&& 0x0f)).1
  · intro ch
    rw [Xca9543a.select_channels, do_on_acquired_of_free _ _ hb]
    exact (select_channels_log drv.data (ch &&& 0x03)).1
  · rw [Xca9543a.select_channels, do_on_acquired_of_free _ _ hb]
    have h1 : (0b10000001 : Nat) &&& 0x03 = 0b00000001 := by decide
    rw [h1]
    exact (select_channels_log drv.data 0b00000001).1

/-- Witness for C4: on the concrete all-succeeding driver, selecting
`0b1000_0001` on the 2-channel variant logs a write of `[1]`. -/
theorem C4_select_masks_by_variant_witness :
    drvOk.borrowed = false ∧
    (Xca9543a.select_channels drvOk 0b10000001).1.data.i2c.log =
      drvOk.data.i2c.log ++ [BusOp.write drvOk.data.address [0b00000001]] ∧
    (129 : Nat) < 256 ∧
    ((129 : Nat) &&& 0xff = 129 ∧
      (Xca9548a.select_channels drvOk 129).1.data.i2c.log =
        drvOk.data.i2c.log ++ [BusOp.write drvOk.data.address [129 &&& 0xff]]) :=
  ⟨rfl,
   (C4_select_masks_by_variant drvOk rfl).2.2.2,
   by norm_num,
   (C4_select_masks_by_variant drvOk rfl).1 129 (by norm_num)⟩

/-! Characterizations of the split-off handle operations, one per
operation and per case (mask already equal; mask different and select
succeeding; mask different and select failing). -/

/-- Handle write, mask already equal: only the caller's write is issued
and the mask is untouched. -/
theorem I2cX_write_of_eq {E : Type} (h : I2cX) (drv : XcaDriver E)
    (a : Nat) (bs : List Nat) (hb : drv.borrowed = false)
    (heq : drv.data.selected_channel_mask = h.channel) :
    (h.write drv a bs).1.data.i2c.log =
      drv.data.i2c.log ++ [BusOp.write a bs] ∧
    (h.write drv a bs).1.data.selected_channel_mask =
      drv.data.selected_channel_mask ∧
    (h.write drv a bs).1.data.address = drv.data.address ∧
    (h.write drv a bs).1.data.i2c.beh = drv.data.i2c.beh ∧
    (h.write drv a bs).1.borrowed = false ∧
    (h.write drv a bs).2 =
      wrapI2C (drv.data.i2c.beh drv.data.i2c.log (BusOp.write a bs)) := by
  rw [I2cX.write, do_on_acquired_of_free _ _ hb]
  simp [heq, hb, Bus.step]

/-- Handle write, mask different, select write succeeding: the select of
the handle's mask is issued first, then the caller's write; the mask
becomes the handle's channel. -/
theorem I2cX_write_of_ne_ok {E : Type} (h : I2cX) (drv : XcaDriver E)
    (a : Nat) (bs : List Nat) (v : List Nat) (hb : drv.borrowed = false)
    (hne : drv.data.selected_channel_mask ≠ h.channel)
    (hok : drv.data.i2c.beh drv.data.i2c.log
      (BusOp.write drv.data.address [h.channel]) = Except.ok v) :
    (h.write drv a bs).1.data.i2c.log =
      drv.data.i2c.log ++
        [BusOp.write drv.data.address [h.channel], BusOp.write a bs] ∧
    (h.write drv a bs).1.data.selected_channel_mask = h.channel ∧
    (h.write drv a bs).1.data.address = drv.data.address ∧
    (h.write drv a bs).1.data.i2c.beh = drv.data.i2c.beh ∧
    (h.write drv a bs).1.borrowed = false ∧
    (h.write drv a bs).2 =
      wrapI2C (drv.data.i2c.beh
        (drv.data.i2c.log ++ [BusOp.write drv.data.address [h.channel]])
        (BusOp.write a bs)) := by
  rw [I2cX.write, do_on_acquired_of_free _ _ hb]
  simp [hne, hb, select_channels_of_ok drv.data h.channel v hok, Bus.step]

/-- Handle write, mask different, select write failing: only the select
attempt is issued, its error is returned, the mask keeps its prior
value. -/
theorem I2cX_write_of_ne_err {E : Type} (h : I2cX) (drv : XcaDriver E)
    (a : Nat) (bs : List Nat) (e : E) (hb : drv.borrowed = false)
    (hne : drv.data.selected_channel_mask ≠ h.channel)
    (herr : drv.data.i2c.beh drv.data.i2c.log
      (BusOp.write drv.data.address [h.channel]) = Except.error e) :
    (h.write drv a bs).1.data.i2c.log =
      drv.data.i2c.log ++ [BusOp.write drv.data.address [h.channel]] ∧
    (h.write drv a bs).1.data.selected_channel_mask =
      drv.data.selected_channel_mask ∧
    (h.write drv a bs).1.data.address = drv.data.address ∧
    (h.write drv a bs).1.data.i2c.beh = drv.data.i2c.beh ∧
    (h.write drv a bs).1.borrowed = false ∧
    (h.write drv a bs).2 = Except.error (Error.I2C e) := by
  rw [I2cX.write, do_on_acquired_of_free _ _ hb]
  simp [hne, hb, select_channels_of_error drv.data h.channel e herr, Bus.step]

/-- Handle read, mask already equal. -/
theorem I2cX_read_of_eq {E : Type} (h : I2cX) (drv : XcaDriver E)
    (a : Nat) (len : Nat) (hb : drv.borrowed = false)
    (heq : drv.data.selected_channel_mask = h.channel) :
    (h.read drv a len).1.data.i2c.log =
      drv.data.i2c.log ++ [BusOp.read a len] ∧
    (h.read drv a len).1.data.selected_channel_mask =
      drv.data.selected_channel_mask ∧
    (h.read drv a len).1.data.address = drv.data.address ∧
    (h.read drv a len).1.data.i2c.beh = drv.data.i2c.beh ∧
    (h.read drv a len).1.borrowed = false ∧
    (h.read drv a len).2 =
      wrapI2C (drv.data.i2c.beh drv.data.i2c.log (BusOp.read a len)) := by
  rw [I2cX.read, do_on_acquired_of_free _ _ hb]
  simp [heq, hb, Bus.step]

/-- Handle read, mask different, select write succeeding. -/
theorem I2cX_read_of_ne_ok {E : Type} (h : I2cX) (drv : XcaDriver E)
    (a : Nat) (len : Nat) (v : List Nat) (hb : drv.borrowed = false)
    (hne : drv.data.selected_channel_mask ≠ h.channel)
    (hok : drv.data.i2c.beh drv.data.i2c.log
      (BusOp.write drv.data.address [h.channel]) = Except.ok v) :
    (h.read drv a len).1.data.i2c.log =
      drv.data.i2c.log ++
        [BusOp.write drv.data.address [h.channel], BusOp.read a len] ∧
    (h.read drv a len).1.data.selected_channel_mask = h.channel ∧
    (h.read drv a len).1.data.address = drv.data.address ∧
    (h.read drv a len).1.data.i2c.beh = drv.data.i2c.beh ∧
    (h.read drv a len).1.borrowed = false ∧
    (h.read drv a len).2 =
      wrapI2C (drv.data.i2c.beh
        (drv.data.i2c.log ++ [BusOp.write drv.data.address [h.channel]])
        (BusOp.read a len)) := by
  rw [I2cX.read, do_on_acquired_of_free _ _ hb]
  simp [hne, hb, select_channels_of_ok drv.data h.channel v hok, Bus.step]

/-- Handle read, mask different, select write failing. -/
theorem I2cX_read_of_ne_err {E : Type} (h : I2cX) (drv : XcaDriver E)
    (a : Nat) (len : Nat) (e : E) (hb : drv.borrowed = false)
    (hne : drv.data.selected_channel_mask ≠ h.channel)
    (herr : drv.data.i2c.beh drv.data.i2c.log
      (BusOp.write drv.data.address [h.channel]) = Except.error e) :
    (h.read drv a len).1.data.i2c.log =
      drv.data.i2c.log ++ [BusOp.write drv.data.address [h.channel]] ∧
    (h.read drv a len).1.data.selected_channel_mask =
      drv.data.selected_channel_mask ∧
    (h.read drv a len).1.data.address = drv.data.address ∧
    (h.read drv a len).1.data.i2c.beh = drv.data.i2c.beh ∧
    (h.read drv a len).1.borrowed = false ∧
    (h.read drv a len).2 = Except.error (Error.I2C e) := by
  rw [I2cX.read, do_on_acquired_of_free _ _ hb]
  simp [hne, hb, select_channels_of_error drv.data h.channel e herr, Bus.step]

/-- Handle write_read, mask already equal. -/
theorem I2cX_write_read_of_eq {E : Type} (h : I2cX) (drv : XcaDriver E)
    (a : Nat) (bs : List Nat) (len : Nat) (hb : drv.borrowed = false)
    (heq : drv.data.selected_channel_mask = h.channel) :
    (h.write_read drv a bs len).1.data.i2c.log =
      drv.data.i2c.log ++ [BusOp.writeRead a bs len] ∧
    (h.write_read drv a bs len).1.data.selected_channel_mask =
      drv.data.selected_channel_mask ∧
    (h.write_read drv a bs len).1.data.address = drv.data.address ∧
    (h.write_read drv a bs len).1.data.i2c.beh = drv.data.i2c.beh ∧
    (h.write_read drv a bs len).1.borrowed = false ∧
    (h.write_read drv a bs len).2 =
      wrapI2C (drv.data.i2c.beh drv.data.i2c.log (BusOp.writeRead a bs len)) := by
  rw [I2cX.write_read, do_on_acquired_of_free _ _ hb]
  simp [heq, hb, Bus.step]

/-- Handle write_read, mask different, select write succeeding. -/
theorem I2cX_write_read_of_ne_ok {E : Type} (h : I2cX) (drv : XcaDriver E)
    (a : Nat) (bs : List Nat) (len : Nat) (v : List Nat)
    (hb : drv.borrowed = false)
    (hne : drv.data.selected_channel_mask ≠ h.channel)
    (hok : drv.data.i2c.beh drv.data.i2c.log
      (BusOp.write drv.data.address [h.channel]) = Except.ok v) :
    (h.write_read drv a bs len).1.data.i2c.log =
      drv.data.i2c.log ++
        [BusOp.write drv.data.address [h.channel], BusOp.writeRead a bs len] ∧
    (h.write_read drv a bs len).1.data.selected_channel_mask = h.channel ∧
    (h.write_read drv a bs len).1.data.address = drv.data.address ∧
    (h.write_read drv a bs len).1.data.i2c.beh = drv.data.i2c.beh ∧
    (h.write_read drv a bs len).1.borrowed = false ∧
    (h.write_read drv a bs len).2 =
      wrapI2C (drv.data.i2c.beh
        (drv.data.i2c.log ++ [BusOp.write drv.data.address [h.channel]])
        (BusOp.writeRead a bs len)) := by
  rw [I2cX.write_read, do_on_acquired_of_free _ _ hb]
  simp [hne, hb, select_channels_of_ok drv.data h.channel v hok, Bus.step]

/-- Handle write_read, mask different, select write failing. -/
theorem I2cX_write_read_of_ne_err {E : Type} (h : I2cX) (drv : XcaDriver E)
    (a : Nat) (bs : List Nat) (len : Nat) (e : E)
    (hb : drv.borrowed = false)
    (hne : drv.data.selected_channel_mask ≠ h.channel)
    (herr : drv.data.i2c.beh drv.data.i2c.log
      (BusOp.write drv.data.address [h.channel]) = Except.error e) :
    (h.write_read drv a bs len).1.data.i2c.log =
      drv.data.i2c.log ++ [BusOp.write drv.data.address [h.channel]] ∧
    (h.write_read drv a bs len).1.data.selected_channel_mask =
      drv.data.selected_channel_mask ∧
    (h.write_read drv a bs len).1.data.address = drv.data.address ∧
    (h.write_read drv a bs len).1.data.i2c.beh = drv.data.i2c.beh ∧
    (h.write_read drv a bs len).1.borrowed = false ∧
    (h.write_read drv a bs len).2 = Except.error (Error.I2C e) := by
  rw [I2cX.write_read, do_on_acquired_of_free _ _ hb]
  simp [hne, hb, select_channels_of_error drv.data h.channel e herr, Bus.step]

/-- C1: Lazy reselect on split-off handles.  For each handle operation
(write, read, write_read): when the shared record's mask differs from the
handle's fixed target, exactly one select write of the target mask is
issued before the caller's data operation (and the mask becomes the
target); when they are equal, no select write is issued.  Consequently
two consecutive operations on the same handle select only once (on the
first call), switching to a handle with a different target re-issues
exactly one select before its first data operation, and a handle used
after an explicit top-level select to a different mask re-selects. -/
theorem C1_lazy_reselect {E : Type} (drv : XcaDriver E) (h : I2cX)
    (hb : drv.borrowed = false) :
    (∀ a bs v, drv.data.selected_channel_mask ≠ h.channel →
      drv.data.i2c.beh drv.data.i2c.log
          (BusOp.write drv.data.address [h.channel]) = Except.ok v →
      (h.write drv a bs).1.data.i2c.log =
        drv.data.i2c.log ++
          [BusOp.write drv.data.address [h.channel], BusOp.write a bs] ∧
      (h.write drv a bs).1.data.selected_channel_mask = h.channel) ∧
    (∀ a bs, drv.data.selected_channel_mask = h.channel →
      (h.write drv a bs).1.data.i2c.log =
        drv.data.i2c.log ++ [BusOp.write a bs] ∧
      (h.write drv a bs).1.data.selected_channel_mask =
        drv.data.selected_channel_mask) ∧
    (∀ a len v, drv.data.selected_channel_mask ≠ h.channel →
      drv.data.i2c.beh drv.data.i2c.log
          (BusOp.write drv.data.address [h.channel]) = Except.ok v →
      (h.read drv a len).1.data.i2c.log =
        drv.data.i2c.log ++
          [BusOp.write drv.data.address [h.channel], BusOp.read a len] ∧
      (h.read drv a len).1.data.selected_channel_mask = h.channel) ∧
    (∀ a len, drv.data.selected_channel_mask = h.channel →
      (h.read drv a len).1.data.i2c.log =
        drv.data.i2c.log ++ [BusOp.read a len] ∧
      (h.read drv a len).1.data.selected_channel_mask =
        drv.data.selected_channel_mask) ∧
    (∀ a bs len v, drv.data.selected_channel_mask ≠ h.channel →
      drv.data.i2c.beh drv.data.i2c.log
          (BusOp.write drv.data.address [h.channel]) = Except.ok v →
      (h.write_read drv a bs len).1.data.i2c.log =
        drv.data.i2c.log ++
          [BusOp.write drv.data.address [h.channel], BusOp.writeRead a bs len] ∧
      (h.write_read drv a bs len).1.data.selected_channel_mask = h.channel) ∧
    (∀ a bs len, drv.data.selected_channel_mask = h.channel →
      (h.write_read drv a bs len).1.data.i2c.log =
        drv.data.i2c.log ++ [BusOp.writeRead a bs len] ∧
      (h.write_read drv a bs len).1.data.selected_channel_mask =
        drv.data.selected_channel_mask) ∧
    (∀ a1 bs1 a2 bs2 v, drv.data.selected_channel_mask ≠ h.channel →
      drv.data.i2c.beh drv.data.i2c.log
          (BusOp.write drv.data.address [h.channel]) = Except.ok v →
      ((h.write (h.write drv a1 bs1).1 a2 bs2).1.data.i2c.log =
        (h.write drv a1 bs1).1.data.i2c.log ++ [BusOp.write a2 bs2])) ∧
    (∀ (h2 : I2cX) a1 bs1 a2 bs2 v w,
      drv.data.selected_channel_mask ≠ h.channel →
      drv.data.i2c.beh drv.data.i2c.log
          (BusOp.write drv.data.address [h.channel]) = Except.ok v →
      h2.channel ≠ h.channel →
      drv.data.i2c.beh
          (drv.data.i2c.log ++
            [BusOp.write drv.data.address [h.channel], BusOp.write a1 bs1])
          (BusOp.write drv.data.address [h2.channel]) = Except.ok w →
      (h2.write (h.write drv a1 bs1).1 a2 bs2).1.data.i2c.log =
        (h.write drv a1 bs1).1.data.i2c.log ++
          [BusOp.write drv.data.address [h2.channel], BusOp.write a2 bs2]) ∧
    (∀ m a bs v w, m ≠ h.channel →
      drv.data.i2c.beh drv.data.i2c.log
          (BusOp.write drv.data.address [m]) = Except.ok v →
      drv.data.i2c.beh (drv.data.i2c.log ++ [BusOp.write drv.data.address [m]])
          (BusOp.write drv.data.address [h.channel]) = Except.ok w →
      (h.write (Xca9548a.select_channels drv m).1 a bs).1.data.i2c.log =
        (Xca9548a.select_channels drv m).1.data.i2c.log ++
          [BusOp.write drv.data.address [h.channel], BusOp.write a bs]) := by
  refine ⟨?_, ?_, ?_, ?_, ?_, ?_, ?_, ?_, ?_⟩
  · intro a bs v hne hok
    have hw := I2cX_write_of_ne_ok h drv a bs v hb hne hok
    exact ⟨hw.1, hw.2.1⟩
  · intro a bs heq
    have hw := I2cX_write_of_eq h drv a bs hb heq
    exact ⟨hw.1, hw.2.1⟩
  · intro a len v hne hok
    have hw := I2cX_read_of_ne_ok h drv a len v hb hne hok
    exact ⟨hw.1, hw.2.1⟩
  · intro a len heq
    have hw := I2cX_read_of_eq h drv a len hb heq
    exact ⟨hw.1, hw.2.1⟩
  · intro a bs len v hne hok
    have hw := I2cX_write_read_of_ne_ok h drv a bs len v hb hne hok
    exact ⟨hw.1, hw.2.1⟩
  · intro a bs len heq
    have hw := I2cX_write_read_of_eq h drv a bs len hb heq
    exact ⟨hw.1, hw.2.1⟩
  · intro a1 bs1 a2 bs2 v hne hok
    have hw := I2cX_write_of_ne_ok h drv a1 bs1 v hb hne hok
    exact (I2cX_write_of_eq h (h.write drv a1 bs1).1 a2 bs2
      hw.2.2.2.2.1 hw.2.1).1
  · intro h2 a1 bs1 a2 bs2 v w hne hok hne2 hok2
    have hw := I2cX_write_of_ne_ok h drv a1 bs1 v hb hne hok
    have hne2' : (h.write drv a1 bs1).1.data.selected_channel_mask ≠
        h2.channel := by
      rw [hw.2.1]
      exact fun hc => hne2 hc.symm
    have hok2' : (h.write drv a1 bs1).1.data.i2c.beh
        (h.write drv a1 bs1).1.data.i2c.log
        (BusOp.write (h.write drv a1 bs1).1.data.address [h2.channel]) =
        Except.ok w := by
      rw [hw.2.2.2.1, hw.1, hw.2.2.1]
      exact hok2
    have hw2 := I2cX_write_of_ne_ok h2 (h.write drv a1 bs1).1 a2 bs2 w
      hw.2.2.2.2.1 hne2' hok2'
    rw [hw2.1, hw.2.2.1]
  · intro m a bs v w hne hok hok2
    rw [Xca9548a.select_channels, do_on_acquired_of_free _ _ hb,
      select_channels_of_ok drv.data m v hok]
    have hw := I2cX_write_of_ne_ok h
      ({ drv with data :=
          { drv.data with
              i2c := { drv.data.i2c with
                log := drv.data.i2c.log ++ [BusOp.write drv.data.address [m]] }
              selected_channel_mask := m } }) a bs w hb hne hok2
    exact hw.1

/-- Witness for C1: on the all-succeeding driver (mask 0) a first write
on the channel-0 handle (mask 1) issues the select then the data write,
and a second write on the same handle issues only the data write. -/
theorem C1_lazy_reselect_witness :
    drvOk.borrowed = false ∧
    ((I2cX.write { channel := 1 } drvOk 32 [5]).1.data.i2c.log =
        drvOk.data.i2c.log ++
          [BusOp.write drvOk.data.address [1], BusOp.write 32 [5]] ∧
      (I2cX.write { channel := 1 } drvOk 32 [5]).1.data.selected_channel_mask =
        1) ∧
    ((I2cX.write { channel := 1 }
        (I2cX.write { channel := 1 } drvOk 32 [5]).1 32 [6]).1.data.i2c.log =
      (I2cX.write { channel := 1 } drvOk 32 [5]).1.data.i2c.log ++
        [BusOp.write 32 [6]]) :=
  ⟨rfl,
   (C1_lazy_reselect drvOk { channel := 1 } rfl).1 32 [5] [0] (by decide) rfl,
   (C1_lazy_reselect drvOk { channel := 1 } rfl).2.2.2.2.2.2.1 32 [5] 32 [6]
     [0] (by decide) rfl⟩

/-- C5: Address resolution is a pure function: `Default` yields the base
unchanged, `Alternative(a2,a1,a0)` yields `base | a2<<2 | a1<<1 | a0`,
and with base `0b111_0000` it is injective over the 8 strap
combinations. -/
theorem C5_address_resolution :
    (∀ dflt : Nat, SlaveAddr.addr SlaveAddr.Default dflt = dflt) ∧
    (∀ (a2 a1 a0 : Bool) (dflt : Nat),
        SlaveAddr.addr (SlaveAddr.Alternative a2 a1 a0) dflt =
          dflt ||| (a2.toNat <<< 2) ||| (a1.toNat <<< 1) ||| a0.toNat) ∧
    (∀ x2 x1 x0 y2 y1 y0 : Bool,
        SlaveAddr.addr (SlaveAddr.Alternative x2 x1 x0) DEVICE_BASE_ADDRESS =
          SlaveAddr.addr (SlaveAddr.Alternative y2 y1 y0) DEVICE_BASE_ADDRESS →
        (x2, x1, x0) = (y2, y1, y0)) := by
  refine ⟨fun _ => rfl, fun _ _ _ _ => rfl, ?_⟩
  decide

/-- Witness for C5: the default address resolves to the base, and the
injectivity conjunct applied at the concrete strap triple
`(true, false, true)`. -/
theorem C5_address_resolution_witness :
    SlaveAddr.addr SlaveAddr.Default 112 = 112 ∧
    ((true, false, true) : Bool × Bool × Bool) = (true, false, true) :=
  ⟨C5_address_resolution.1 112,
   C5_address_resolution.2.2 true false true true false true rfl⟩

/-- A bus on which every operation succeeds and reads return `[0xA5]`. -/
def busA5 : Bus Unit := { beh := fun _ _ => Except.ok [0xA5], log := [] }

/-- An unborrowed driver over `busA5`. -/
def drvA5 : XcaDriver Unit :=
  { data :=
      { i2c := busA5, address := DEVICE_BASE_ADDRESS, selected_channel_mask := 0 }
    borrowed := false }

/-- C6: the status reads each issue one single-byte read of the control
register at the resolved address; `get_channel_status` returns the raw
byte unmodified on the 8-channel variant and `raw &&& VALID_MASK` on the
interrupt-capable variants; `get_interrupt_status` returns
`(raw >>> 4) &&& VALID_MASK`. -/
theorem C6_status_reads {E : Type} (drv : XcaDriver E)
    (hb : drv.borrowed = false) :
    (∀ l, drv.data.i2c.beh drv.data.i2c.log (BusOp.read drv.data.address 1) =
        Except.ok l →
      (Xca9548a.get_channel_status drv).2 = Except.ok (l.headD 0) ∧
      (Xca9548a.get_channel_status drv).1.data.i2c.log =
        drv.data.i2c.log ++ [BusOp.read drv.data.address 1]) ∧
    (∀ l, drv.data.i2c.beh drv.data.i2c.log (BusOp.read drv.data.address 1) =
        Except.ok l →
      (Xca9543a.get_channel_status drv).2 = Except.ok (l.headD 0 &&& 0x03) ∧
      (Xca9543a.get_channel_status drv).1.data.i2c.log =
        drv.data.i2c.log ++ [BusOp.read drv.data.address 1]) ∧
    (∀ l, drv.data.i2c.beh drv.data.i2c.log (BusOp.read drv.data.address 1) =
        Except.ok l →
      (Xca9543a.get_interrupt_status drv).2 =
        Except.ok ((l.headD 0 >>> 4) &&& 0x03) ∧
      (Xca9543a.get_interrupt_status drv).1.data.i2c.log =
        drv.data.i2c.log ++ [BusOp.read drv.data.address 1]) ∧
    (∀ l, drv.data.i2c.beh drv.data.i2c.log (BusOp.read drv.data.address 1) =
        Except.ok l →
      (Xca9545a.get_channel_status drv).2 = Except.ok (l.headD 0 &&& 0x0f) ∧
      (Xca9545a.get_channel_status drv).1.data.i2c.log =
        drv.data.i2c.log ++ [BusOp.read drv.data.address 1]) ∧
    (∀ l, drv.data.i2c.beh drv.data.i2c.log (BusOp.read drv.data.address 1) =
        Except.ok l →
      (Xca9545a.get_interrupt_status drv).2 =
        Except.ok ((l.headD 0 >>> 4) &&& 0x0f) ∧
      (Xca9545a.get_interrupt_status drv).1.data.i2c.log =
        drv.data.i2c.log ++ [BusOp.read drv.data.address 1]) := by
  refine ⟨?_, ?_, ?_, ?_, ?_⟩ <;> intro l hok
  · rw [Xca9548a.get_channel_status, do_on_acquired_of_free _ _ hb]
    exact ⟨by simp [Bus.step, hok], rfl⟩
  · rw [Xca9543a.get_channel_status, do_on_acquired_of_free _ _ hb]
    exact ⟨by simp [Bus.step, hok], rfl⟩
  · rw [Xca9543a.get_interrupt_status, do_on_acquired_of_free _ _ hb]
    exact ⟨by simp [Bus.step, hok], rfl⟩
  · rw [Xca9545a.get_channel_status, do_on_acquired_of_free _ _ hb]
    exact ⟨by simp [Bus.step, hok], rfl⟩
  · rw [Xca9545a.get_interrupt_status, do_on_acquired_of_free _ _ hb]
    exact ⟨by simp [Bus.step, hok], rfl⟩

/-- Witness for C6: with the control register reading `0xA5`, the
2-channel variant reports channel status `0xA5 &&& 3 = 1` and interrupt
status `(0xA5 >>> 4) &&& 3 = 2`. -/
theorem C6_status_reads_witness :
    (Xca9543a.get_channel_status drvA5).2 = Except.ok 1 ∧
    (Xca9543a.get_interrupt_status drvA5).2 = Except.ok 2 ∧
    (Xca9548a.get_channel_status drvA5).2 = Except.ok 0xA5 :=
  ⟨((C6_status_reads drvA5 rfl).2.1 [0xA5] rfl).1,
   ((C6_status_reads drvA5 rfl).2.2.1 [0xA5] rfl).1,
   ((C6_status_reads drvA5 rfl).1 [0xA5] rfl).1⟩

/-- C7: the top-level pass-through operations forward the caller's
transaction as-is — the log grows by exactly the caller's operation, no
channel-select write is issued, `selected_channel_mask` is unchanged,
and the outcome is the wrapped bus outcome. -/
theorem C7_passthrough_no_select {E : Type} (drv : XcaDriver E)
    (hb : drv.borrowed = false) :
    (∀ a bs,
      (drv.write a bs).1.data.i2c.log =
        drv.data.i2c.log ++ [BusOp.write a bs] ∧
      (drv.write a bs).1.data.selected_channel_mask =
        drv.data.selected_channel_mask ∧
      (drv.write a bs).2 =
        wrapI2C (drv.data.i2c.beh drv.data.i2c.log (BusOp.write a bs))) ∧
    (∀ a len,
      (drv.read a len).1.data.i2c.log =
        drv.data.i2c.log ++ [BusOp.read a len] ∧
      (drv.read a len).1.data.selected_channel_mask =
        drv.data.selected_channel_mask ∧
      (drv.read a len).2 =
        wrapI2C (drv.data.i2c.beh drv.data.i2c.log (BusOp.read a len))) ∧
    (∀ a bs len,
      (drv.write_read a bs len).1.data.i2c.log =
        drv.data.i2c.log ++ [BusOp.writeRead a bs len] ∧
      (drv.write_read a bs len).1.data.selected_channel_mask =
        drv.data.selected_channel_mask ∧
      (drv.write_read a bs len).2 =
        wrapI2C (drv.data.i2c.beh drv.data.i2c.log (BusOp.writeRead a bs len))) ∧
    (∀ a ops,
      (drv.transaction a ops).1.data.i2c.log =
        drv.data.i2c.log ++ [BusOp.transaction a ops] ∧
      (drv.transaction a ops).1.data.selected_channel_mask =
        drv.data.selected_channel_mask ∧
      (drv.transaction a ops).2 =
        wrapI2C (drv.data.i2c.beh drv.data.i2c.log (BusOp.transaction a ops))) := by
  refine ⟨?_, ?_, ?_, ?_⟩ <;> intros
  · rw [XcaDriver.write, do_on_acquired_of_free _ _ hb]; exact ⟨rfl, rfl, rfl⟩
  · rw [XcaDriver.read, do_on_acquired_of_free _ _ hb]; exact ⟨rfl, rfl, rfl⟩
  · rw [XcaDriver.write_read, do_on_acquired_of_free _ _ hb]
    exact ⟨rfl, rfl, rfl⟩
  · rw [XcaDriver.transaction, do_on_acquired_of_free _ _ hb]
    exact ⟨rfl, rfl, rfl⟩

/-- Witness for C7: a pass-through write on the concrete driver logs
only the caller's write and leaves the mask at 0. -/
theorem C7_passthrough_no_select_witness :
    (drvOk.write 32 [5]).1.data.i2c.log =
      drvOk.data.i2c.log ++ [BusOp.write 32 [5]] ∧
    (drvOk.write 32 [5]).1.data.selected_channel_mask =
      drvOk.data.selected_channel_mask ∧
    (drvOk.write 32 [5]).2 =
      wrapI2C (drvOk.data.i2c.beh drvOk.data.i2c.log (BusOp.write 32 [5])) :=
  (C7_passthrough_no_select drvOk rfl).1 32 [5]

/-- C8: `split` builds the fixed set of handles without touching the
driver state (so no bus transaction, and it cannot fail); the 8-channel
variant's handles carry the masks `1 <<< i` for `i = 0..7`, and the
spec-modelled 2- and 4-channel splitters carry `1 <<< i` for their
channel counts. -/
theorem C8_split_masks :
    (∀ (E : Type) (drv : XcaDriver E), drv.split = (drv, Parts.new)) ∧
    Parts.new.channels = (List.range 8).map (fun i => 2 ^ i) ∧
    Parts2.new.channels = (List.range 2).map (fun i => 2 ^ i) ∧
    Parts4.new.channels = (List.range 4).map (fun i => 2 ^ i) :=
  ⟨fun _ _ => rfl, by decide, by decide, by decide⟩

/-- Preservation of the `address` field through the arbitration gate:
if the closure preserves it, so does the gated operation. -/
theorem do_on_acquired_address {E R : Type} (drv : XcaDriver E)
    (f : Xca954xaData E → Xca954xaData E × Except (Error E) R)
    (hf : ∀ dev, (f dev).1.address = dev.address) :
    (do_on_acquired drv f).1.data.address = drv.data.address := by
  cases hbb : drv.borrowed with
  | true => rw [do_on_acquired_of_borrowed _ _ hbb]
  | false =>
      rw [do_on_acquired_of_free _ _ hbb]
      exact hf drv.data

/-- C10: the resolved device address always lies between `0b111_0000`
and `0b111_0111`, and no operation — select, status reads, pass-through
transactions, handle operations or split — ever modifies the record's
`address` field. -/
theorem C10_address_range_and_immutable {E : Type} :
    (∀ a : SlaveAddr,
      DEVICE_BASE_ADDRESS ≤ a.addr DEVICE_BASE_ADDRESS ∧
      a.addr DEVICE_BASE_ADDRESS ≤ 0b1110111) ∧
    (∀ (drv : XcaDriver E) ch,
      (Xca9548a.select_channels drv ch).1.data.address = drv.data.address) ∧
    (∀ (drv : XcaDriver E) ch,
      (Xca9543a.select_channels drv ch).1.data.address = drv.data.address) ∧
    (∀ (drv : XcaDriver E) ch,
      (Xca9545a.select_channels drv ch).1.data.address = drv.data.address) ∧
    (∀ drv : XcaDriver E,
      (Xca9548a.get_channel_status drv).1.data.address = drv.data.address) ∧
    (∀ drv : XcaDriver E,
      (Xca9543a.get_channel_status drv).1.data.address = drv.data.address) ∧
    (∀ drv : XcaDriver E,
      (Xca9543a.get_interrupt_status drv).1.data.address = drv.data.address) ∧
    (∀ drv : XcaDriver E,
      (Xca9545a.get_channel_status drv).1.data.address = drv.data.address) ∧
    (∀ drv : XcaDriver E,
      (Xca9545a.get_interrupt_status drv).1.data.address = drv.data.address) ∧
    (∀ (drv : XcaDriver E) a bs,
      (drv.write a bs).1.data.address = drv.data.address) ∧
    (∀ (drv : XcaDriver E) a len,
      (drv.read a len).1.data.address = drv.data.address) ∧
    (∀ (drv : XcaDriver E) a bs len,
      (drv.write_read a bs len).1.data.address = drv.data.address) ∧
    (∀ (drv : XcaDriver E) a ops,
      (drv.transaction a ops).1.data.address = drv.data.address) ∧
    (∀ (h : I2cX) (drv : XcaDriver E) a bs,
      (h.write drv a bs).1.data.address = drv.data.address) ∧
    (∀ (h : I2cX) (drv : XcaDriver E) a len,
      (h.read drv a len).1.data.address = drv.data.address) ∧
    (∀ (h : I2cX) (drv : XcaDriver E) a bs len,
      (h.write_read drv a bs len).1.data.address = drv.data.address) ∧
    (∀ drv : XcaDriver E, (drv.split).1.data.address = drv.data.address) := by
  have hsel : ∀ (dev : Xca954xaData E) (ch : Nat),
      (dev.select_channels ch).1.address = dev.address :=
    fun dev ch => (select_channels_log dev ch).2.1
  refine ⟨?_, ?_, ?_, ?_, ?_, ?_, ?_, ?_, ?_, ?_, ?_, ?_, ?_, ?_, ?_, ?_, ?_⟩
  · intro a
    cases a with
    | Default => exact ⟨by decide, by decide⟩
    | Alternative a2 a1 a0 =>
        cases a2 <;> cases a1 <;> cases a0 <;> exact ⟨by decide, by decide⟩
  · intro drv ch
    rw [Xca9548a.select_channels]
    exact do_on_acquired_address _ _ fun dev => hsel dev ch
  · intro drv ch
    rw [Xca9543a.select_channels]
    exact do_on_acquired_address _ _ fun dev => hsel dev (ch &&& 0x03)
  · intro drv ch
    rw [Xca9545a.select_channels]
    exact do_on_acquired_address _ _ fun dev => hsel dev (ch &&& 0x0f)
  · intro drv
    rw [Xca9548a.get_channel_status]
    exact do_on_acquired_address _ _ fun dev => rfl
  · intro drv
    rw [Xca9543a.get_channel_status]
    exact do_on_acquired_address _ _ fun dev => rfl
  · intro drv
    rw [Xca9543a.get_interrupt_status]
    exact do_on_acquired_address _ _ fun dev => rfl
  · intro drv
    rw [Xca9545a.get_channel_status]
    exact do_on_acquired_address _ _ fun dev => rfl
  · intro drv
    rw [Xca9545a.get_interrupt_status]
    exact do_on_acquired_address _ _ fun dev => rfl
  · intro drv a bs
    rw [XcaDriver.write]
    exact do_on_acquired_address _ _ fun dev => rfl
  · intro drv a len
    rw [XcaDriver.read]
    exact do_on_acquired_address _ _ fun dev => rfl
  · intro drv a bs len
    rw [XcaDriver.write_read]
    exact do_on_acquired_address _ _ fun dev => rfl
  · intro drv a ops
    rw [XcaDriver.transaction]
    exact do_on_acquired_address _ _ fun dev => rfl
  · intro h drv a bs
    cases hbb : drv.borrowed with
    | true => rw [I2cX.write, do_on_acquired_of_borrowed _ _ hbb]
    | false =>
        by_cases heq : drv.data.selected_channel_mask = h.channel
        · exact (I2cX_write_of_eq h drv a bs hbb heq).2.2.1
        · cases hbeh : drv.data.i2c.beh drv.data.i2c.log
            (BusOp.write drv.data.address [h.channel]) with
          | ok v => exact (I2cX_write_of_ne_ok h drv a bs v hbb heq hbeh).2.2.1
          | error e =>
              exact (I2cX_write_of_ne_err h drv a bs e hbb heq hbeh).2.2.1
  · intro h drv a len
    cases hbb : drv.borrowed with
    | true => rw [I2cX.read, do_on_acquired_of_borrowed _ _ hbb]
    | false =>
        by_cases heq : drv.data.selected_channel_mask = h.channel
        · exact (I2cX_read_of_eq h drv a len hbb heq).2.2.1
        · cases hbeh : drv.data.i2c.beh drv.data.i2c.log
            (BusOp.write drv.data.address [h.channel]) with
          | ok v => exact (I2cX_read_of_ne_ok h drv a len v hbb heq hbeh).2.2.1
          | error e =>
              exact (I2cX_read_of_ne_err h drv a len e hbb heq hbeh).2.2.1
  · intro h drv a bs len
    cases hbb : drv.borrowed with
    | true => rw [I2cX.write_read, do_on_acquired_of_borrowed _ _ hbb]
    | false =>
        by_cases heq : drv.data.selected_channel_mask = h.channel
        · exact (I2cX_write_read_of_eq h drv a bs len hbb heq).2.2.1
        · cases hbeh : drv.data.i2c.beh drv.data.i2c.log
            (BusOp.write drv.data.address [h.channel]) with
          | ok v =>
              exact (I2cX_write_read_of_ne_ok h drv a bs len v hbb heq hbeh).2.2.1
          | error e =>
              exact (I2cX_write_read_of_ne_err h drv a bs len e hbb heq hbeh).2.2.1
  · intro drv
    rfl

/-- C9: `new` initializes the record with mask 0 and the resolved
address without touching the bus, and `destroy` immediately afterwards
returns the original bus handle unchanged, its log still as given. -/
theorem C9_new_destroy_roundtrip {E : Type} :
    ∀ (bus : Bus E) (a : SlaveAddr),
      (XcaDriver.new bus a).data.selected_channel_mask = 0 ∧
      (XcaDriver.new bus a).data.address = a.addr DEVICE_BASE_ADDRESS ∧
      (XcaDriver.new bus a).data.i2c.log = bus.log ∧
      (XcaDriver.new bus a).destroy = bus := by
  intro bus a
  exact ⟨rfl, rfl, rfl, rfl⟩
